import Mathlib

/-!
Shallow embedding of the JLink controller (`jlinkcontroller.py`) from the
`pylink_tools` repository, together with theorems settling the spec claims.

Python strings are embedded as `List Char` (the RTT/timestamp code treats
them as character sequences), byte values as `Nat`, and calls into the
external pylink SDK as explicit outcome parameters: `none`/`Except.error`
stands for a raised SDK exception, `some`/`Except.ok` for a normal return.
-/

namespace PylinkTools

/-- One entry of `self.detected_jlinks`: the dict
`{"product_name": probe.acProduct.decode(), "serial_number": probe.SerialNumber}`
built by `JLinkController.discover`. -/
structure Device where
  product_name : String
  serial_number : Int
deriving DecidableEq, Repr

/-- One element of the list returned by `jlink.connected_emulators(USB)`:
the fields of the pylink `JLinkConnectInfo` that `discover` reads
(`acProduct` already decoded to a string, `SerialNumber` an integer). -/
structure JLinkConnectInfo where
  acProduct : String
  SerialNumber : Int
deriving DecidableEq, Repr

/-- The `for probe in connected_probes` loop of `JLinkController.discover`:
the device dict of each probe is appended unless already present
(`if device not in self.detected_jlinks`), starting from the cleared
list. -/
def discover_populate (connected_probes : List JLinkConnectInfo) :
    List Device :=
  connected_probes.foldl
    (fun acc probe =>
      let device : Device := ⟨probe.acProduct, probe.SerialNumber⟩
      if device ∈ acc then acc else acc ++ [device]) []

/-- Embedding of `JLinkController.discover`.  The stored
`detected_jlinks` list is cleared first; `enumResult = none` models
`connected_emulators` raising (the `except` path), `some probes` a
normal return.  The new stored list and the returned boolean are
produced; the method returns `False` when the resulting list is empty. -/
def discover (_detected_jlinks : List Device)
    (enumResult : Option (List JLinkConnectInfo)) : List Device × Bool :=
  match enumResult with
  | none => ([], false)
  | some connected_probes =>
    let detected := discover_populate connected_probes
    if detected.length = 0 then (detected, false) else (detected, true)

/-- Embedding of `JLinkController.is_any_jlink`:
`len(self.detected_jlinks) > 0`. -/
def is_any_jlink (detected_jlinks : List Device) : Bool :=
  decide (0 < detected_jlinks.length)

/-- Outcome of the `self.jlink.open(serial_no=...)` call inside
`JLinkController.connect`: either the SDK call raises, or it returns and
the subsequent `is_connected()` liveness check
(`jlink.opened() and jlink.connected()`) yields `liveAfter`. -/
inductive OpenOutcome where
  | raises
  | succeeds (liveAfter : Bool)
deriving DecidableEq, Repr

/-- What `JLinkController.connect` leaves behind: its boolean return
value, whether the underlying SDK handle is open after the call returns
(on the `raises` path `jlink.open` failed and established no handle), and
whether `jlink.close()` was invoked anywhere inside `connect`. -/
structure ConnectResult where
  ok : Bool
  handleOpen : Bool
  closeCalled : Bool
deriving DecidableEq, Repr

/-- Embedding of `JLinkController.connect`, restricted to the handle
lifecycle.  The
body wraps only `jlink.open` in `try/except` and returns `False` either
when `open` raises or when the post-open `is_connected()` check is false;
no path of the method calls `jlink.close()`. -/
def connect (o : OpenOutcome) : ConnectResult :=
  match o with
  | .raises => ⟨false, false, false⟩
  | .succeeds live =>
    if live then ⟨true, true, false⟩ else ⟨false, true, false⟩

/-- Embedding of `JLinkController.disconnect`: returns whether
`jlink.close()` completed without raising. -/
def disconnect (closeOk : Bool) : Bool := closeOk

/-- The transport enum `pylink.enums.JLinkInterfaces` values used by
`jlink_interface_from_string`. -/
inductive JLinkInterfaces where
  | SWD | JTAG | ICSP | SPI | FINE | C2
deriving DecidableEq, Repr

/-- Embedding of `JLinkController.jlink_interface_from_string`: `None`
becomes the
empty string, the input is lower-cased and matched; anything
unrecognized falls back to SWD (with a logged warning). -/
def jlink_interface_from_string (interface : Option String) : JLinkInterfaces :=
  let s := (interface.getD "").toLower
  if s = "swd" then .SWD
  else if s = "jtag" then .JTAG
  else if s = "icsp" then .ICSP
  else if s = "spi" then .SPI
  else if s = "fine" then .FINE
  else if s = "c2" then .C2
  else .SWD

/-- Embedding of `JLinkController.connect_to_mcu`.  `opened` is the pylink
`open_required` precondition on the handle (`jlink.opened()` and
`jlink.connected()`); in the Disconnected state it is `false`.  The
method first calls `jlink.set_tif` OUTSIDE any `try` block, and
`set_tif` is `@open_required` in pylink, so with a closed handle the
exception escapes the method (`Except.error`).  With an open handle,
`jlink.connect` (inside `try`, also `open_required`) either raises —
caught, `return False` — or succeeds, after which a false
`is_mcu_connected()` also yields `return False`. -/
def connect_to_mcu (opened : Bool) (sdkConnectOk : Bool)
    (targetConnected : Bool) (_mcu_target : String)
    (interface : Option String) : Except String Bool :=
  let _tif := jlink_interface_from_string interface
  if !opened then Except.error "J-Link DLL is not open."
  else if !sdkConnectOk then Except.ok false
  else if !targetConnected then Except.ok false
  else Except.ok true

/-- Embedding of `JLinkController.fw_dump_file`.  Parameters model the
SDK and
filesystem: `memRead address length` is `jlink.memory_read` (`none` =
raised), `fileWriteOk` whether the `open(file_path,"wb")`/`write` block
completes.  Result: the returned boolean, paired with the bytes handed
to the destination-file write, `none` when the write stage was never
reached. -/
def fw_dump_file (ready : Bool) (address : Nat) (flash_size : Nat)
    (length_to_read : Option Nat) (memRead : Nat → Nat → Option (List Nat))
    (fileWriteOk : Bool) : Bool × Option (List Nat) :=
  if !ready then (false, none)
  else
    let len := length_to_read.getD flash_size
    match memRead address len with
    | none => (false, none)
    | some fw_read_bytes =>
      if fw_read_bytes.length ≠ len then (false, none)
      else (fileWriteOk, some fw_read_bytes)

/-- Embedding of `JLinkController.fw_flash_file`.  `ready` is
`is_jlink_mcu_connected()`; `fileBytes` the bytes of the firmware file
(`none` = the `open/read` raised); `_unlockOk` the tolerated
`jlink.unlock()` attempt (its failure is swallowed by a bare `except:
pass`); `flashOk` whether `jlink.flash_file` returned; `memRead address
length` the verification read-back.  After programming, the code reads
`len(fw_bytes)` bytes from `address` and returns `False` on a length or
content mismatch, `True` only when the read-back equals the file bytes. -/
def fw_flash_file (ready : Bool) (address : Nat)
    (fileBytes : Option (List Nat)) (_unlockOk : Bool) (flashOk : Bool)
    (memRead : Nat → Nat → Option (List Nat)) : Bool :=
  if !ready then false
  else
    match fileBytes with
    | none => false
    | some fw_bytes =>
      if !flashOk then false
      else
        match memRead address fw_bytes.length with
        | none => false
        | some read_bytes =>
          if read_bytes.length ≠ fw_bytes.length then false
          else if read_bytes ≠ fw_bytes then false
          else true

/-- Embedding of `JLinkController.fw_flash_on_progress`, after the
`round()`: emits a
log line exactly when the (rounded) percentage differs from
`self.last_percentage`, then stores the percentage.  Returns the new
`last_percentage` and whether a log emission happened. -/
def fw_flash_on_progress (last_percentage : Int) (percentage : Int) :
    Int × Bool :=
  if percentage ≠ last_percentage then (percentage, true)
  else (percentage, false)

/-- Driving `fw_flash_on_progress` over a sequence of (already rounded)
percentages, starting from a given `last_percentage` (the constructor
sets it to `0`).  Returns the final `last_percentage` and the list of
percentages at which a log emission happened. -/
def run_on_progress (init : Int) (ps : List Int) : Int × List Int :=
  ps.foldl
    (fun st p =>
      let r := fw_flash_on_progress st.1 p
      (r.1, if r.2 then st.2 ++ [p] else st.2))
    (init, [])

/-- The mutable RTT state of a `JLinkController`: the line accumulator
`self.rtt_read_line` and the sequence of lines emitted so far through
`logger.info` (each stored as its character list). -/
structure RttState where
  rtt_read_line : List Char
  emitted : List (List Char)
deriving DecidableEq, Repr

/-- The `text_line` built at flush time inside `rtt_read`:
`"{} {}".format(timestamp, text_line)` when the timestamp string is
non-empty, the bare line otherwise. -/
def flush_line (timestamp : List Char) (line : List Char) : List Char :=
  if timestamp ≠ [] then timestamp ++ ' ' :: line else line

/-- Processing of one received byte inside `JLinkController.rtt_read`
(the body of `if read_byte:`), with `timestamp` the value
`get_timestamp()` returns at flush time.  A byte that is neither `\r`
nor `\n` is appended to the accumulator; on `\n` the current accumulator
is emitted (timestamp-prefixed when the timestamp is non-empty) and the
accumulator is reset to the empty string; `\r` leaves the state
unchanged. -/
def rtt_read_step (timestamp : List Char) (st : RttState) (c : Char) :
    RttState :=
  let line :=
    if c ≠ '\r' ∧ c ≠ '\n' then st.rtt_read_line ++ [c]
    else st.rtt_read_line
  if c = '\n' then
    { rtt_read_line := [],
      emitted := st.emitted ++ [flush_line timestamp st.rtt_read_line] }
  else { st with rtt_read_line := line }

/-- Embedding of `JLinkController.rtt_read`.  `ready` is
`is_jlink_mcu_connected()`;
`sdkRead ch` the outcome of `jlink.rtt_read(ch, 1)`: `none` = the SDK
call raised (caught; `result_ok` stays `False`), `some none` = no byte
available, `some (some c)` = one byte read.  Returns the new state and
the boolean result. -/
def rtt_read (ready : Bool) (timestamp : List Char) (rtt_channel : Nat)
    (sdkRead : Nat → Option (Option Char)) (st : RttState) :
    RttState × Bool :=
  if !ready then (st, false)
  else
    match sdkRead rtt_channel with
    | none => (st, false)
    | some none => (st, true)
    | some (some c) => (rtt_read_step timestamp st c, true)

/-- Feeding a byte sequence to `rtt_read` one byte at a time on channel
`0`, in the ready state, with every byte available. -/
def rtt_run (timestamp : List Char) (cs : List Char) (st : RttState) :
    RttState :=
  cs.foldl
    (fun s c => (rtt_read true timestamp 0 (fun _ => some (some c)) s).1)
    st

/-- The accumulator invariant: no carriage-return and no line-feed
character is ever stored in `rtt_read_line`. -/
def no_cr_lf (l : List Char) : Bool :=
  l.all (fun c => !(c == '\r') && !(c == '\n'))

/-- UTF-8 bytes of a Python string (`bytearray(data, "utf-8")`),
as natural numbers. -/
def utf8Bytes (s : String) : List Nat :=
  (s.data.flatMap String.utf8EncodeChar).map UInt8.toNat

/-- Embedding of `JLinkController.rtt_write`.  The method takes no
channel argument:
`data_bytes = list(bytearray(data, "utf-8") + b"\x0A\x00")` is always
sent with `jlink.rtt_write(0, data_bytes)`.  `sdkWrite ch bytes` models
that SDK call (`none` = raised, caught and `False` returned).  Result:
the returned boolean, paired with the `(channel, bytes)` the SDK write
was invoked with (`none` when no SDK write was attempted). -/
def rtt_write (ready : Bool) (data : String)
    (sdkWrite : Nat → List Nat → Option Nat) :
    Bool × Option (Nat × List Nat) :=
  if !ready then (false, none)
  else
    let data_bytes := utf8Bytes data ++ [0x0A, 0x00]
    match sdkWrite 0 data_bytes with
    | none => (false, some (0, data_bytes))
    | some bytes_written =>
      (if bytes_written ≠ data_bytes.length then false else true,
       some (0, data_bytes))

/-- Decimal digits of `n`, most significant first, computed with `fuel`
recursion steps (enough whenever `n ≤ fuel`); the recursion mirrors how
the Python `str(int)` renders a nonnegative integer in base 10. -/
def decReprAux : Nat → Nat → List Char
  | 0, _ => []
  | fuel + 1, n =>
    if n = 0 then []
    else decReprAux fuel (n / 10) ++ [Nat.digitChar (n % 10)]

/-- The Python `"{}".format(n)` for a nonnegative integer `n`: its decimal
representation, as a character list. -/
def decRepr (n : Nat) : List Char :=
  if n = 0 then ['0'] else decReprAux n n

/-- The broken-down UTC time `datetime.utcnow()` returns, restricted to
the fields `get_timestamp` reads. -/
structure DateTimeUTC where
  year : Nat
  month : Nat
  day : Nat
  hour : Nat
  minute : Nat
  second : Nat
  microsecond : Nat
deriving DecidableEq, Repr

/-- Embedding of `JLinkController.get_timestamp` (the non-raising path):
`"[{}-{}-{} {}:{}:{}.{}]"` formatted with year, month, day, hour,
minute, second and `"{}".format(tobj.microsecond)[:3]` — the FIRST
THREE CHARACTERS of the decimal representation of the microsecond, not the
millisecond value. -/
def get_timestamp (t : DateTimeUTC) : List Char :=
  ['['] ++ decRepr t.year ++ ['-'] ++ decRepr t.month ++ ['-'] ++
  decRepr t.day ++ [' '] ++ decRepr t.hour ++ [':'] ++
  decRepr t.minute ++ [':'] ++ decRepr t.second ++ ['.'] ++
  (decRepr t.microsecond).take 3 ++ [']']

/-- The timestamp format as the specification words it (refinement
side, NOT taken from the source): `[year-month-day hour:minute:second.mmm]`
with the final component the millisecond value of the time
(`microsecond / 1000`), fields unpadded. -/
def timestamp_ms_format (t : DateTimeUTC) : List Char :=
  ['['] ++ decRepr t.year ++ ['-'] ++ decRepr t.month ++ ['-'] ++
  decRepr t.day ++ [' '] ++ decRepr t.hour ++ [':'] ++
  decRepr t.minute ++ [':'] ++ decRepr t.second ++ ['.'] ++
  decRepr (t.microsecond / 1000) ++ [']']


/-! ### Helper lemmas about the decimal representation -/

theorem decReprAux_zero (f : Nat) : decReprAux f 0 = [] := by
  cases f <;> simp [decReprAux]

theorem decReprAux_fuel :
    ∀ n f g, n ≤ f → n ≤ g → decReprAux f n = decReprAux g n := by
  intro n
  induction n using Nat.strong_induction_on with
  | _ n ih =>
    intro f g hf hg
    cases n with
    | zero => rw [decReprAux_zero, decReprAux_zero]
    | succ m =>
      cases f with
      | zero => omega
      | succ f1 =>
        cases g with
        | zero => omega
        | succ g1 =>
          simp only [decReprAux, if_neg (Nat.succ_ne_zero m)]
          congr 1
          exact ih ((m + 1) / 10) (by omega) f1 g1 (by omega) (by omega)

theorem decReprAux_unfold (f n : Nat) (hn : 0 < n) (hf : n ≤ f) :
    decReprAux f n = decReprAux f (n / 10) ++ [Nat.digitChar (n % 10)] := by
  cases f with
  | zero => omega
  | succ f1 =>
    simp only [decReprAux, if_neg (by omega : n ≠ 0)]
    congr 1
    exact decReprAux_fuel (n / 10) f1 (f1 + 1) (by omega) (by omega)

theorem decRepr_split1000 (n : Nat) (hn : 1000 ≤ n) :
    decRepr n =
      decRepr (n / 1000) ++
        [Nat.digitChar (n / 100 % 10), Nat.digitChar (n / 10 % 10),
         Nat.digitChar (n % 10)] := by
  have h2 : n / 10 / 10 = n / 100 := by
    rw [Nat.div_div_eq_div_mul]
  have h3 : n / 100 / 10 = n / 1000 := by
    rw [Nat.div_div_eq_div_mul]
  rw [decRepr, if_neg (by omega : ¬ n = 0),
      decRepr, if_neg (by omega : ¬ n / 1000 = 0)]
  rw [decReprAux_unfold n n (by omega) le_rfl]
  rw [decReprAux_unfold n (n / 10) (by omega) (by omega), h2]
  rw [decReprAux_unfold n (n / 100) (by omega) (by omega), h3]
  rw [decReprAux_fuel (n / 1000) n (n / 1000) (by omega) le_rfl]
  simp

theorem decRepr_len3 (a : Nat) (h1 : 100 ≤ a) (h2 : a < 1000) :
    (decRepr a).length = 3 := by
  have hz : a / 100 / 10 = 0 := by
    rw [Nat.div_div_eq_div_mul]; omega
  rw [decRepr, if_neg (by omega : ¬ a = 0)]
  rw [decReprAux_unfold a a (by omega) le_rfl]
  rw [decReprAux_unfold a (a / 10) (by omega) (by omega),
      Nat.div_div_eq_div_mul]
  rw [decReprAux_unfold a (a / (10 * 10)) (by omega) (by omega)]
  have hz2 : a / (10 * 10) / 10 = 0 := by omega
  rw [hz2, decReprAux_zero]
  simp

theorem decRepr_take_three (n : Nat) (h1 : 100000 ≤ n) (h2 : n < 1000000) :
    (decRepr n).take 3 = decRepr (n / 1000) := by
  rw [decRepr_split1000 n (by omega)]
  have hlen : (decRepr (n / 1000)).length = 3 :=
    decRepr_len3 (n / 1000) (by omega) (by omega)
  rw [← hlen, List.take_left]


/-! ### Claim theorems -/

/-- C1: for every firmware flash request in which the SDK programming
step succeeds (ready state, file read to `fw_bytes`, `flash_file`
returned), `fw_flash_file` performs a read-back of `len(fw_bytes)` bytes
from the start address and succeeds exactly when that read-back equals
the source file bytes; any length or content discrepancy (or a raised
read) makes the operation return failure. -/
theorem fw_flash_file_verifies (address : Nat) (fw_bytes : List Nat)
    (unlockOk : Bool) (memRead : Nat → Nat → Option (List Nat)) :
    fw_flash_file true address (some fw_bytes) unlockOk true memRead = true ↔
      memRead address fw_bytes.length = some fw_bytes := by
  unfold fw_flash_file
  cases h : memRead address fw_bytes.length with
  | none => simp [h]
  | some read_bytes =>
    by_cases he : read_bytes = fw_bytes
    · subst he; simp [h]
    · simp [h, he]

/-- C6: the default flash-progress handler emits a log line exactly when
the rounded percentage differs from the previously stored one; starting
from the initial `last_percentage = 0`, the sequence
`[10, 10, 11, 11, 11, 100]` produces exactly three emissions, at `10`,
`11` and `100`. -/
theorem fw_flash_on_progress_coalesces :
    (∀ last p : Int,
        (fw_flash_on_progress last p).2 = true ↔ p ≠ last) ∧
    run_on_progress 0 [10, 10, 11, 11, 11, 100] = (100, [10, 11, 100]) := by
  refine ⟨fun last p => ?_, by decide⟩
  unfold fw_flash_on_progress
  split_ifs with h <;> simp [h]

/-- C3 (counterexample): with the SDK enumeration succeeding and
reporting zero probes, `discover` does NOT return a success result — it
returns `False`. -/
theorem discover_zero_probes_not_success :
    ¬ ((discover [] (some [])).2 = true) := by decide

/-- C3 (amended): on an SDK enumeration fault `discover` returns failure
with an empty stored list; when enumeration succeeds with zero probes it
also stores an empty list and returns FAILURE, not success; a success
result is returned exactly when the deduplicated stored list is
non-empty. -/
theorem discover_result_amended :
    (∀ prev, discover prev none = ([], false)) ∧
    (∀ prev, discover prev (some []) = ([], false)) ∧
    (∀ prev probes, (discover prev (some probes)).2 =
        !(discover prev (some probes)).1.isEmpty) := by
  refine ⟨fun prev => rfl, fun prev => rfl, fun prev probes => ?_⟩
  unfold discover
  cases hd : discover_populate probes <;> simp [hd]

/-- C4: invoking `connect_to_mcu` while no probe connection is open
(Disconnected state, `opened = false`) never reports a successful target
connection — for every target name, interface string and SDK behavior
the call fails, surfacing the `open_required` precondition exception of
the un-guarded `set_tif` call. -/
theorem connect_to_mcu_disconnected_fails :
    ∀ (sdkConnectOk targetConnected : Bool) (mcu_target : String)
      (interface : Option String),
      connect_to_mcu false sdkConnectOk targetConnected mcu_target
          interface ≠ Except.ok true ∧
      connect_to_mcu false sdkConnectOk targetConnected mcu_target
          interface = Except.error "J-Link DLL is not open." := by
  intro c t n i
  refine ⟨fun h => ?_, rfl⟩
  exact absurd h (by simp [connect_to_mcu])

/-- C5 (counterexample): when `jlink.open` succeeds but the post-open
liveness check reports not connected, `connect` returns failure with the
SDK handle still open and `close` never called — a half-open handle is
left outstanding. -/
theorem connect_liveness_fail_leaves_handle_open :
    (connect (.succeeds false)).ok = false ∧
    (connect (.succeeds false)).handleOpen = true ∧
    (connect (.succeeds false)).closeCalled = false := by decide

/-- C5 (amended): whenever probe connection fails — the SDK open call
raises, or the post-open liveness check reports not connected — the
operation returns a failure result, but `connect` never releases the
handle: `close` is called on no path, so on the liveness-check-failure
path the handle remains open (until a separate `disconnect`). -/
theorem connect_failure_no_close :
    connect .raises = ⟨false, false, false⟩ ∧
    connect (.succeeds false) = ⟨false, true, false⟩ ∧
    (∀ o, (connect o).closeCalled = false) := by
  refine ⟨rfl, rfl, fun o => ?_⟩
  cases o with
  | raises => rfl
  | succeeds live => cases live <;> rfl

/-- C7: if the SDK memory read returns a byte count different from the
requested length, `fw_dump_file` returns failure and never reaches the
destination-file write (no truncated file); and an omitted length
argument defaults to the flash size of the connected target. -/
theorem fw_dump_file_length_mismatch :
    (∀ (address flash_size : Nat) (length_to_read : Option Nat)
        (memRead : Nat → Nat → Option (List Nat)) (fileWriteOk : Bool)
        (bytes : List Nat),
        memRead address (length_to_read.getD flash_size) = some bytes →
        bytes.length ≠ length_to_read.getD flash_size →
        fw_dump_file true address flash_size length_to_read memRead
            fileWriteOk = (false, none)) ∧
    (∀ (address flash_size : Nat)
        (memRead : Nat → Nat → Option (List Nat)) (fileWriteOk : Bool),
        fw_dump_file true address flash_size none memRead fileWriteOk =
          fw_dump_file true address flash_size (some flash_size) memRead
            fileWriteOk) := by
  constructor
  · intro a fs ltr mr w bytes hm hl
    simp [fw_dump_file, hm, hl]
  · intro a fs mr w
    rfl

/-- C7 (witness): a concrete mismatching read — requested length 4
(defaulted from the flash size), SDK returns 2 bytes — fails without
writing a file. -/
theorem fw_dump_file_length_mismatch_witness :
    (fun _ _ => some [1, 2] : Nat → Nat → Option (List Nat)) 0
        ((none : Option Nat).getD 4) = some [1, 2] ∧
    ([1, 2] : List Nat).length ≠ (none : Option Nat).getD 4 ∧
    fw_dump_file true 0 4 none (fun _ _ => some [1, 2]) true =
      (false, none) :=
  ⟨rfl, by decide,
    fw_dump_file_length_mismatch.1 0 4 none _ true [1, 2] rfl (by decide)⟩

/-- C9: `discover` clears the stored probe list before querying the SDK,
so when enumeration raises, the failure result leaves the stored list
empty — any earlier discovery results are discarded — and
`is_any_jlink` reports `false`. -/
theorem discover_failure_clears :
    ∀ prev : List Device,
      discover prev none = ([], false) ∧
      is_any_jlink (discover prev none).1 = false := by
  intro prev
  exact ⟨rfl, rfl⟩

/-- C10: `rtt_write` always invokes the SDK write on RTT channel 0 (the
method has no channel parameter) with the UTF-8 payload framed by a
line-feed then a null byte, succeeds exactly when the SDK reports having
written the full framed length, and fails without an SDK call when not
ready. -/
theorem rtt_write_frames_channel0 :
    ∀ (data : String) (sdkWrite : Nat → List Nat → Option Nat),
      (rtt_write true data sdkWrite).2 =
          some (0, utf8Bytes data ++ [10, 0]) ∧
      ((rtt_write true data sdkWrite).1 = true ↔
        sdkWrite 0 (utf8Bytes data ++ [10, 0]) =
          some (utf8Bytes data ++ [10, 0]).length) ∧
      rtt_write false data sdkWrite = (false, none) := by
  intro data sdk
  refine ⟨?_, ?_, rfl⟩
  · unfold rtt_write
    cases h : sdk 0 (utf8Bytes data ++ [10, 0]) <;> simp [h]
  · unfold rtt_write
    cases h : sdk 0 (utf8Bytes data ++ [10, 0]) with
    | none => simp [h]
    | some written =>
      by_cases hw : written = (utf8Bytes data ++ [10, 0]).length
      · simp [h, hw]
      · simp [h, hw]


/-- C2: bytes fed to `rtt_read` never put a carriage-return or line-feed
character into the line accumulator; a line-feed byte makes the
accumulated content be emitted as one timestamp-prefixed line with the
accumulator reset to empty; and feeding `"ab" + LF + "cd" + LF` one byte
at a time emits exactly the two lines `"ab"` and `"cd"`, each
timestamp-prefixed, leaving the accumulator empty. -/
theorem rtt_read_line_reassembly :
    (∀ (ready : Bool) (ts : List Char) (ch : Nat)
        (sdk : Nat → Option (Option Char)) (st : RttState),
        no_cr_lf st.rtt_read_line = true →
        no_cr_lf ((rtt_read ready ts ch sdk st).1.rtt_read_line) = true) ∧
    (∀ (ts : List Char) (st : RttState),
        rtt_read_step ts st '\n' =
          { rtt_read_line := [],
            emitted := st.emitted ++ [flush_line ts st.rtt_read_line] }) ∧
    rtt_run "[T]".data "ab\ncd\n".data ⟨[], []⟩ =
      ⟨[], ["[T] ab".data, "[T] cd".data]⟩ := by
  refine ⟨?_, fun ts st => rfl, by decide⟩
  intro ready ts ch sdk st h
  cases ready with
  | false => simpa [rtt_read] using h
  | true =>
    simp only [rtt_read, Bool.not_true]
    cases hs : sdk ch with
    | none => simpa using h
    | some mc =>
      cases mc with
      | none => simpa using h
      | some c =>
        simp only
        unfold rtt_read_step
        by_cases hn : c = '\n'
        · simp [hn, no_cr_lf]
        · by_cases hr : c = '\r'
          · simp [hn, hr, h]
          · simp only [hn, hr, ne_eq, not_false_iff, and_self, if_true,
              if_neg hn]
            simp only [no_cr_lf, List.all_append, List.all_cons,
              List.all_nil, Bool.and_true] at h ⊢
            simp [h, hr, hn]

/-- C2 (witness): feeding one ordinary byte in the ready state keeps the
accumulator free of carriage-return and line-feed characters. -/
theorem rtt_read_line_reassembly_witness :
    no_cr_lf (RttState.mk "x".data []).rtt_read_line = true ∧
    no_cr_lf ((rtt_read true [] 0 (fun _ => some (some 'y'))
        (RttState.mk "x".data [])).1.rtt_read_line) = true :=
  ⟨by decide,
    rtt_read_line_reassembly.1 true [] 0 (fun _ => some (some 'y'))
      (RttState.mk "x".data []) (by decide)⟩

/-- C8 (counterexample): at the UTC time 2022-12-6 10:20:30 with
microsecond value 1234 (millisecond value 1), the emitted timestamp ends
in `.123]`, not in the millisecond value — the produced string differs
from the format the claim states. -/
theorem get_timestamp_not_milliseconds :
    get_timestamp ⟨2022, 12, 6, 10, 20, 30, 1234⟩ ≠
      timestamp_ms_format ⟨2022, 12, 6, 10, 20, 30, 1234⟩ := by decide

/-- C8 (amended): the timestamp has the fixed field order
`[year-month-day hour:minute:second.xxx]`, where the final component is
the first three characters of the decimal representation of the
microsecond value; this equals the millisecond value exactly when the
microsecond value has six digits (is at least 100000). -/
theorem get_timestamp_six_digit_ms (t : DateTimeUTC)
    (h1 : 100000 ≤ t.microsecond) (h2 : t.microsecond < 1000000) :
    get_timestamp t = timestamp_ms_format t := by
  unfold get_timestamp timestamp_ms_format
  rw [decRepr_take_three t.microsecond h1 h2]

/-- C8 (amended, witness): at microsecond value 123456 the two formats
agree. -/
theorem get_timestamp_six_digit_ms_witness :
    100000 ≤ 123456 ∧ 123456 < 1000000 ∧
    get_timestamp ⟨2022, 12, 6, 10, 20, 30, 123456⟩ =
      timestamp_ms_format ⟨2022, 12, 6, 10, 20, 30, 123456⟩ :=
  ⟨by decide, by decide,
    get_timestamp_six_digit_ms ⟨2022, 12, 6, 10, 20, 30, 123456⟩
      (by decide) (by decide)⟩

end PylinkTools
